import Mathlib

/-!
Shallow embedding of the stock-availability logic of an e-commerce storefront
and of its registration handler.  The embedded code consists of

* the weight-aware inventory-check POST handler (settings lookup, product
  lookup, per-mode input validation, inventory lookup, availability compare),
* the older quantity-only inventory-check POST handler,
* the client-side addToCartWithToast flow that calls the weight-aware handler
  and then applies the in-cart total gate, and
* the registration POST handler (magic-link driven approval status).

JavaScript numbers are modelled as rationals, absent JSON fields and nullable
database columns as Option, thrown database queries as explicit fault flags,
and the database query layer as function-valued oracles carried in a state
record.  JavaScript truthiness (undefined, null, 0 and the empty string are
falsy) is modelled explicitly by the helpers below.
-/

namespace Storefront

/-- Truthiness of an optional JS string: undefined, null and the empty string
are falsy, every other string is truthy. -/
def strTruthy : Option String → Bool
  | none => false
  | some s => !decide (s = "")

/-- Truthiness of an optional JS number (NaN is not modelled): undefined, null
and 0 are falsy, every other number, negative numbers included, is truthy. -/
def numTruthy : Option ℚ → Bool
  | none => false
  | some v => !decide (v = 0)

/-- JS expression x || d on an optional number: undefined, null and 0 fall
through to the default. -/
def numOr (x : Option ℚ) (d : ℚ) : ℚ :=
  match x with
  | none => d
  | some v => if v = 0 then d else v

/-- JS expression x || d on an optional string: undefined, null and the empty
string fall through to the default. -/
def strOr (x : Option String) (d : String) : String :=
  match x with
  | none => d
  | some s => if s = "" then d else s

/-- JS expression x || null on an optional string: a falsy value becomes
null. -/
def strOrNull (x : Option String) : Option String :=
  if strTruthy x then x else none

/-- Row of the products table, restricted to the column the handlers actually
use; the stockManagementType column is nullable. -/
structure ProductRow where
  stockManagementType : Option String
deriving Repr, DecidableEq

/-- Row of the productInventory table.  Both columns are nullable; the
availableWeight column is a decimal string in the schema and is modelled here
by its parsed numeric value, so parseFloat(inv.availableWeight || "0") becomes
numOr inv.availableWeight 0. -/
structure InventoryRow where
  availableQuantity : Option ℚ
  availableWeight : Option ℚ
deriving Repr, DecidableEq

/-- JSON body of an inventory-check request; every field may be absent. -/
structure CheckRequest where
  productId : Option String
  variantId : Option String
  requestedQuantity : Option ℚ
  requestedWeight : Option ℚ
deriving Repr, DecidableEq

/-- Database snapshot and fault flags visible to the inventory-check handlers:
the stored value of the stock_management_enabled settings row (none when the
row is absent), whether the settings query throws, the product and inventory
lookup oracles, and whether the product/inventory queries throw. -/
structure CheckDb where
  settingsRow : Option String
  settingsThrows : Bool
  findProduct : String → Option ProductRow
  findInventory : String → Option String → Option InventoryRow
  lookupThrows : Bool

/-- JSON body of a 200 inventory-check response; fields that a given branch of
the handler does not emit are none. -/
structure CheckBody where
  success : Bool
  available : Bool
  stockManagementEnabled : Bool
  isWeightBased : Option Bool
  availableQuantity : Option ℚ
  availableWeight : Option ℚ
  requestedQuantity : Option ℚ
  requestedWeight : Option ℚ
  message : Option String
deriving Repr, DecidableEq

/-- Outcome of an inventory-check handler: an HTTP error status with its error
message, or a 200 response with a JSON body. -/
inductive CheckResponse where
  | httpError (status : Nat) (error : String)
  | json (body : CheckBody)
deriving Repr, DecidableEq

/-- Embeds getStockManagementSetting: reads the stock_management_enabled
settings row; when the query throws the catch block returns false; when the
row is absent the result is false; otherwise the stored value is compared with
the string true. -/
def getStockManagementSetting (db : CheckDb) : Bool :=
  if db.settingsThrows then false
  else
    match db.settingsRow with
    | none => false
    | some v => decide (v = "true")

/-- Embeds isWeightBasedProduct. -/
def isWeightBasedProduct (stockManagementType : String) : Bool :=
  decide (stockManagementType = "weight")

/-- Embeds the weight-aware inventory-check POST handler.  The branch order
follows the source: missing productId, disabled-settings bypass, product
lookup (404 when absent, 500 when the query throws), per-mode required-field
validation, inventory lookup, and finally the per-mode availability compare.
In JS the validation condition is !requested && requested !== 0, which rejects
exactly an absent field: 0 is exempted explicitly and any other number is
truthy. -/
def inventoryCheckPOST (db : CheckDb) (req : CheckRequest) : CheckResponse :=
  if !strTruthy req.productId then
    .httpError 400 "Product ID is required"
  else
    let stockManagementEnabled := getStockManagementSetting db
    if !stockManagementEnabled then
      .json { success := true, available := true, stockManagementEnabled := false,
              isWeightBased := some false,
              availableQuantity := some 999999, availableWeight := some 999999,
              requestedQuantity := some (numOr req.requestedQuantity 0),
              requestedWeight := some (numOr req.requestedWeight 0),
              message := none }
    else if db.lookupThrows then
      .httpError 500 "Failed to check inventory"
    else
      match db.findProduct (req.productId.getD "") with
      | none => .httpError 404 "Product not found"
      | some product =>
        let isWeightBased := isWeightBasedProduct (strOr product.stockManagementType "quantity")
        if isWeightBased && !numTruthy req.requestedWeight
            && !decide (req.requestedWeight = some 0) then
          .httpError 400 "Requested weight is required for weight-based products"
        else if !isWeightBased && !numTruthy req.requestedQuantity
            && !decide (req.requestedQuantity = some 0) then
          .httpError 400 "Requested quantity is required for quantity-based products"
        else
          match db.findInventory (req.productId.getD "") req.variantId with
          | none =>
            .json { success := false, available := false, stockManagementEnabled := true,
                    isWeightBased := some isWeightBased,
                    availableQuantity := some 0, availableWeight := some 0,
                    requestedQuantity := some (numOr req.requestedQuantity 0),
                    requestedWeight := some (numOr req.requestedWeight 0),
                    message := some "No inventory record found for this product" }
          | some inv =>
            if isWeightBased then
              let availableWeight := numOr inv.availableWeight 0
              let isAvailable := decide (availableWeight ≥ numOr req.requestedWeight 0)
              .json { success := true, available := isAvailable,
                      stockManagementEnabled := true,
                      isWeightBased := some true,
                      availableQuantity := none,
                      availableWeight := some availableWeight,
                      requestedQuantity := none,
                      requestedWeight := some (numOr req.requestedWeight 0),
                      message := some (if isAvailable then "Stock available"
                        else "Only " ++ toString availableWeight ++ "g available") }
            else
              let availableQuantity := numOr inv.availableQuantity 0
              let isAvailable := decide (availableQuantity ≥ numOr req.requestedQuantity 0)
              .json { success := true, available := isAvailable,
                      stockManagementEnabled := true,
                      isWeightBased := some false,
                      availableQuantity := some availableQuantity,
                      availableWeight := none,
                      requestedQuantity := some (numOr req.requestedQuantity 0),
                      requestedWeight := none,
                      message := some (if isAvailable then "Stock available"
                        else "Only " ++ toString availableQuantity ++ " units available") }

/-- Embeds the quantity-only inventory-check POST handler.  Its input guard is
!productId || !requestedQuantity, so a requestedQuantity of 0 is rejected as
missing; it has no weight branch at all and emits no weight fields. -/
def inventoryCheckQtyPOST (db : CheckDb) (req : CheckRequest) : CheckResponse :=
  if !strTruthy req.productId || !numTruthy req.requestedQuantity then
    .httpError 400 "Product ID and requested quantity are required"
  else
    let stockManagementEnabled := getStockManagementSetting db
    if !stockManagementEnabled then
      .json { success := true, available := true, stockManagementEnabled := false,
              isWeightBased := none,
              availableQuantity := some 999999, availableWeight := none,
              requestedQuantity := req.requestedQuantity,
              requestedWeight := none, message := none }
    else if db.lookupThrows then
      .httpError 500 "Failed to check inventory"
    else
      match db.findProduct (req.productId.getD "") with
      | none => .httpError 404 "Product not found"
      | some _product =>
        match db.findInventory (req.productId.getD "") req.variantId with
        | none =>
          .json { success := false, available := false, stockManagementEnabled := true,
                  isWeightBased := none,
                  availableQuantity := some 0, availableWeight := none,
                  requestedQuantity := req.requestedQuantity,
                  requestedWeight := none,
                  message := some "No inventory record found for this product" }
        | some inv =>
          let availableQuantity := numOr inv.availableQuantity 0
          let isAvailable := decide (availableQuantity ≥ req.requestedQuantity.getD 0)
          .json { success := true, available := isAvailable,
                  stockManagementEnabled := true,
                  isWeightBased := none,
                  availableQuantity := some availableQuantity,
                  availableWeight := none,
                  requestedQuantity := req.requestedQuantity,
                  requestedWeight := none,
                  message := some (if isAvailable then "Stock available"
                    else "Only " ++ toString availableQuantity ++ " units available") }

/-- Product fields the client add-to-cart flow reads. -/
structure ClientProduct where
  id : String
  variantId : Option String
  stockManagementType : Option String
deriving Repr, DecidableEq

/-- Cart line already held for the same product/variant: quantity is the unit
count and numericValue the stored per-unit weight in grams of a weight-based
line. -/
structure CartItem where
  quantity : ℚ
  numericValue : Option ℚ
deriving Repr, DecidableEq

/-- Observable decision of the addToCartWithToast flow: which toast fires and
whether the item is actually added to the cart. -/
inductive AddOutcome where
  | fetchError (error : String)
  | insufficientStock (message : Option String)
  | limitedStock (canAdd : ℚ)
  | atMaximum (inCart : ℚ)
  | added
deriving Repr, DecidableEq

/-- Request body addToCartWithToast sends to the weight-aware inventory-check
endpoint: for a weight-based product the weight field is weightInGrams ||
quantity (the caller-supplied scalar is the fallback), for a quantity-based
product only the quantity field is sent. -/
def addToCartRequestBody (product : ClientProduct) (quantity : ℚ)
    (weightInGrams : Option ℚ) : CheckRequest :=
  let isWeightBased := decide (product.stockManagementType = some "weight")
  { productId := some product.id,
    variantId := product.variantId,
    requestedQuantity := if isWeightBased then none else some quantity,
    requestedWeight := if isWeightBased then some (numOr weightInGrams quantity) else none }

/-- Embeds the weight-aware addToCartWithToast flow: build the request body,
invoke the inventory-check handler, bail out on an HTTP error or on
available = false, then apply the client-side total-in-cart gate.  The cart
lookup for the existing line is passed in as existingItem.  In JS the gate
condition is enabled && total > result.availableX; a comparison against an
absent field is false, which the inner match mirrors. -/
def addToCartDecision (db : CheckDb) (product : ClientProduct) (quantity : ℚ)
    (weightInGrams : Option ℚ) (existingItem : Option CartItem) : AddOutcome :=
  let isWeightBased := decide (product.stockManagementType = some "weight")
  match inventoryCheckPOST db (addToCartRequestBody product quantity weightInGrams) with
  | .httpError _ error => .fetchError error
  | .json result =>
    if !result.available then
      .insufficientStock result.message
    else
      let currentQuantityInCart := numOr (existingItem.map fun i => i.quantity) 0
      let currentWeightInCart := numOr (existingItem.bind fun i => i.numericValue) 0
      if isWeightBased then
        let requestedWeight := numOr weightInGrams quantity
        let totalRequestedWeight :=
          currentQuantityInCart * currentWeightInCart + requestedWeight
        if result.stockManagementEnabled then
          match result.availableWeight with
          | none => .added
          | some availableWeight =>
            if totalRequestedWeight > availableWeight then
              let canAdd := availableWeight - currentQuantityInCart * currentWeightInCart
              if canAdd > 0 then .limitedStock canAdd
              else .atMaximum (currentQuantityInCart * currentWeightInCart)
            else .added
        else .added
      else
        let totalRequestedQuantity := currentQuantityInCart + quantity
        if result.stockManagementEnabled then
          match result.availableQuantity with
          | none => .added
          | some availableQuantity =>
            if totalRequestedQuantity > availableQuantity then
              let canAdd := availableQuantity - currentQuantityInCart
              if canAdd > 0 then .limitedStock canAdd
              else .atMaximum currentQuantityInCart
            else .added
        else .added

/-- JSON body of a registration request. -/
structure RegisterRequest where
  email : Option String
  password : Option String
  name : Option String
  note : Option String
  magicToken : Option String
deriving Repr, DecidableEq

/-- Row of the globalMagicLink table, restricted to the columns the handler
uses. -/
structure MagicLinkRow where
  id : String
  isEnabled : Bool
deriving Repr, DecidableEq

/-- Database oracles visible to the registration handler: existing-user checks
by email and by phone, and the magic-link lookup by token. -/
structure RegisterDb where
  userWithEmailExists : String → Bool
  userWithPhoneExists : String → Bool
  findMagicLink : String → Option MagicLinkRow

/-- Row the registration handler inserts into the user table. -/
structure NewUser where
  id : String
  name : Option String
  note : Option String
  password : String
  status : String
  email : Option String
  phone : Option String
deriving Repr, DecidableEq

/-- Outcome of the registration handler: an HTTP error, or a success JSON
body; the autoApproved field is absent from the pending-approval response. -/
inductive RegisterResponse where
  | httpError (status : Nat) (error : String)
  | ok (message : String) (requiresApproval : Bool) (autoApproved : Option Bool)
deriving Repr, DecidableEq

/-- Everything the registration handler does that is visible from outside:
the HTTP response, the user row inserted (none when validation failed), and
whether a magicLinkUsage row was recorded. -/
structure RegisterResult where
  response : RegisterResponse
  insertedUser : Option NewUser
  magicLinkUsageRecorded : Bool
deriving DecidableEq

/-- Embeds the magic-link validity check of the registration handler: the
token must be truthy, found in the globalMagicLink table, and its row must
have isEnabled set. -/
def magicLinkValid (db : RegisterDb) (magicToken : Option String) : Bool :=
  if strTruthy magicToken then
    match db.findMagicLink (magicToken.getD "") with
    | some ml => ml.isEnabled
    | none => false
  else false

/-- Projects the requiresApproval field out of a success response. -/
def respRequiresApproval : RegisterResponse → Option Bool
  | .ok _ requiresApproval _ => some requiresApproval
  | .httpError _ _ => none

/-- Embeds the registration POST handler.  bcrypt is abstracted by the
hashPassword oracle and uuidv4 by the newId argument.  An input containing an
at sign is treated as an email, anything else as a phone number, in which case
the stored email is the digits of the input followed by the placeholder
domain. -/
def registerPOST (db : RegisterDb) (hashPassword : String → String)
    (newId : String) (req : RegisterRequest) : RegisterResult :=
  if !strTruthy req.email || !strTruthy req.password then
    ⟨.httpError 400 "Email or phone number and password are required.", none, false⟩
  else if !strTruthy req.name then
    ⟨.httpError 400 "Name is required.", none, false⟩
  else
    let email := req.email.getD ""
    let isEmail := email.toList.contains '@'
    let existingUser :=
      if isEmail then db.userWithEmailExists email else db.userWithPhoneExists email
    if existingUser then
      ⟨.httpError 400 "An account with this email or phone number already exists.",
        none, false⟩
    else
      let isMagicLinkValid := magicLinkValid db req.magicToken
      let hashedPassword := hashPassword (req.password.getD "")
      let userData : NewUser :=
        { id := newId,
          name := strOrNull req.name,
          note := strOrNull req.note,
          password := hashedPassword,
          status := if isMagicLinkValid then "approved" else "pending",
          email := if isEmail then some email
                   else some (String.mk (email.toList.filter Char.isDigit)
                     ++ "@phone.placeholder"),
          phone := if isEmail then none else some email }
      if isMagicLinkValid then
        ⟨.ok "Account created and automatically approved via magic link! You can now login."
            false (some true),
          some userData, true⟩
      else
        ⟨.ok "Account created successfully! Your account is pending approval. You will be able to login once an admin approves your account."
            true none,
          some userData, false⟩

/-- Projects the available field out of a 200 inventory-check response. -/
def responseAvailable : CheckResponse → Option Bool
  | .json b => some b.available
  | .httpError _ _ => none

/-! Concrete database snapshots and requests used to evaluate the theorems on
explicit inputs. -/

/-- Product row of a quantity-managed product. -/
def qtyProductRow : ProductRow := { stockManagementType := some "quantity" }

/-- Product row of a weight-managed product. -/
def weightProductRow : ProductRow := { stockManagementType := some "weight" }

/-- Snapshot with no settings row at all. -/
def dbDisabled : CheckDb :=
  { settingsRow := none, settingsThrows := false,
    findProduct := fun _ => none, findInventory := fun _ _ => none,
    lookupThrows := false }

/-- Snapshot where stock management is on, the product is quantity-managed,
and no inventory record exists. -/
def dbEnabledQtyNoInv : CheckDb :=
  { settingsRow := some "true", settingsThrows := false,
    findProduct := fun _ => some qtyProductRow,
    findInventory := fun _ _ => none,
    lookupThrows := false }

/-- Snapshot where stock management is on, the product is quantity-managed,
and the inventory record holds n units. -/
def dbEnabledQty (n : ℚ) : CheckDb :=
  { settingsRow := some "true", settingsThrows := false,
    findProduct := fun _ => some qtyProductRow,
    findInventory := fun _ _ => some { availableQuantity := some n, availableWeight := none },
    lookupThrows := false }

/-- Snapshot where stock management is on, the product is weight-managed, and
the inventory record holds g grams. -/
def dbEnabledWeight (g : ℚ) : CheckDb :=
  { settingsRow := some "true", settingsThrows := false,
    findProduct := fun _ => some weightProductRow,
    findInventory := fun _ _ => some { availableQuantity := none, availableWeight := some g },
    lookupThrows := false }

/-- Client view of a quantity-managed product. -/
def clientQtyProduct : ClientProduct :=
  { id := "p1", variantId := none, stockManagementType := some "quantity" }

/-- Client view of a weight-managed product. -/
def clientWeightProduct : ClientProduct :=
  { id := "p1", variantId := none, stockManagementType := some "weight" }

/-- Inventory-check request for q units of product p1. -/
def reqQty (q : ℚ) : CheckRequest :=
  { productId := some "p1", variantId := none,
    requestedQuantity := some q, requestedWeight := none }

/-- Inventory-check request for g grams of product p1. -/
def reqWeight (g : ℚ) : CheckRequest :=
  { productId := some "p1", variantId := none,
    requestedQuantity := none, requestedWeight := some g }

/-- Inventory-check request with no product identity. -/
def reqNoId : CheckRequest :=
  { productId := none, variantId := none,
    requestedQuantity := some 1, requestedWeight := none }

/-- Snapshot where the settings row exists but its query throws. -/
def dbSettingsThrow : CheckDb :=
  { settingsRow := some "true", settingsThrows := true,
    findProduct := fun _ => some qtyProductRow,
    findInventory := fun _ _ => none,
    lookupThrows := false }

/-- Snapshot with stock management on but no matching product row. -/
def dbEnabledNoProd : CheckDb :=
  { settingsRow := some "true", settingsThrows := false,
    findProduct := fun _ => none, findInventory := fun _ _ => none,
    lookupThrows := false }

/-- Snapshot with stock management on, a weight-managed product, and no
inventory record. -/
def dbEnabledWeightNoInv : CheckDb :=
  { settingsRow := some "true", settingsThrows := false,
    findProduct := fun _ => some weightProductRow,
    findInventory := fun _ _ => none,
    lookupThrows := false }

/-- Snapshot with stock management on whose product/inventory queries
throw. -/
def dbLookupThrow : CheckDb :=
  { settingsRow := some "true", settingsThrows := false,
    findProduct := fun _ => some qtyProductRow,
    findInventory := fun _ _ => none,
    lookupThrows := true }

/-- Snapshot with stock management on serving a weight-managed product under
p1 and a quantity-managed product under every other id, with no inventory
rows. -/
def dbTwoProducts : CheckDb :=
  { settingsRow := some "true", settingsThrows := false,
    findProduct := fun pid =>
      if pid = "p1" then some weightProductRow else some qtyProductRow,
    findInventory := fun _ _ => none,
    lookupThrows := false }

/-- Registration database with no existing users and a single enabled magic
link under the token tok. -/
def regDb : RegisterDb :=
  { userWithEmailExists := fun _ => false,
    userWithPhoneExists := fun _ => false,
    findMagicLink := fun t =>
      if t = "tok" then some { id := "ml1", isEnabled := true } else none }

/-- Registration request carrying the enabled magic token. -/
def regReqMagic : RegisterRequest :=
  { email := some "ann@shop.example", password := some "pw", name := some "Ann",
    note := none, magicToken := some "tok" }

/-- Registration request with an unknown magic token. -/
def regReqPlain : RegisterRequest :=
  { email := some "bob@shop.example", password := some "pw", name := some "Bob",
    note := none, magicToken := none }

/-! Helper lemmas characterizing each branch of the handlers. -/

/-- Evaluates numOr on a present field with default 0. -/
theorem numOr_some_zero (v : ℚ) : numOr (some v) 0 = v := by
  unfold numOr
  split <;> simp_all

/-- Missing productId short-circuits to HTTP 400. -/
theorem inventoryCheckPOST_missingId (db : CheckDb) (req : CheckRequest)
    (hpid : strTruthy req.productId = false) :
    inventoryCheckPOST db req = .httpError 400 "Product ID is required" := by
  unfold inventoryCheckPOST
  simp [hpid]

/-- Disabled stock management short-circuits to the sentinel 200 response. -/
theorem inventoryCheckPOST_disabled (db : CheckDb) (req : CheckRequest)
    (hpid : strTruthy req.productId = true)
    (hdis : getStockManagementSetting db = false) :
    inventoryCheckPOST db req = .json
      { success := true, available := true, stockManagementEnabled := false,
        isWeightBased := some false,
        availableQuantity := some 999999, availableWeight := some 999999,
        requestedQuantity := some (numOr req.requestedQuantity 0),
        requestedWeight := some (numOr req.requestedWeight 0),
        message := none } := by
  unfold inventoryCheckPOST
  simp [hpid, hdis]

/-- A thrown product/inventory query on the enabled path yields HTTP 500. -/
theorem inventoryCheckPOST_throws (db : CheckDb) (req : CheckRequest)
    (hpid : strTruthy req.productId = true)
    (hen : getStockManagementSetting db = true)
    (hthrow : db.lookupThrows = true) :
    inventoryCheckPOST db req = .httpError 500 "Failed to check inventory" := by
  unfold inventoryCheckPOST
  simp [hpid, hen, hthrow]

/-- An unknown product on the enabled path yields HTTP 404. -/
theorem inventoryCheckPOST_noProduct (db : CheckDb) (req : CheckRequest)
    (hpid : strTruthy req.productId = true)
    (hen : getStockManagementSetting db = true)
    (hthrow : db.lookupThrows = false)
    (hprod : db.findProduct (req.productId.getD "") = none) :
    inventoryCheckPOST db req = .httpError 404 "Product not found" := by
  unfold inventoryCheckPOST
  simp [hpid, hen, hthrow, hprod]

/-- For a weight-managed product, an absent requestedWeight yields HTTP 400. -/
theorem inventoryCheckPOST_weightMissing (db : CheckDb) (req : CheckRequest)
    (product : ProductRow)
    (hpid : strTruthy req.productId = true)
    (hen : getStockManagementSetting db = true)
    (hthrow : db.lookupThrows = false)
    (hprod : db.findProduct (req.productId.getD "") = some product)
    (hmode : isWeightBasedProduct (strOr product.stockManagementType "quantity") = true)
    (hw : req.requestedWeight = none) :
    inventoryCheckPOST db req
      = .httpError 400 "Requested weight is required for weight-based products" := by
  unfold inventoryCheckPOST
  simp [hpid, hen, hthrow, hprod, hmode, hw, numTruthy]

/-- For a quantity-managed product, an absent requestedQuantity yields HTTP
400. -/
theorem inventoryCheckPOST_qtyMissing (db : CheckDb) (req : CheckRequest)
    (product : ProductRow)
    (hpid : strTruthy req.productId = true)
    (hen : getStockManagementSetting db = true)
    (hthrow : db.lookupThrows = false)
    (hprod : db.findProduct (req.productId.getD "") = some product)
    (hmode : isWeightBasedProduct (strOr product.stockManagementType "quantity") = false)
    (hq : req.requestedQuantity = none) :
    inventoryCheckPOST db req
      = .httpError 400 "Requested quantity is required for quantity-based products" := by
  unfold inventoryCheckPOST
  simp [hpid, hen, hthrow, hprod, hmode, hq, numTruthy]

/-- Quantity mode, no inventory record: the all-zero no-record response. -/
theorem inventoryCheckPOST_qty_noRecord (db : CheckDb) (req : CheckRequest)
    (product : ProductRow) (q : ℚ)
    (hpid : strTruthy req.productId = true)
    (hen : getStockManagementSetting db = true)
    (hthrow : db.lookupThrows = false)
    (hprod : db.findProduct (req.productId.getD "") = some product)
    (hmode : isWeightBasedProduct (strOr product.stockManagementType "quantity") = false)
    (hq : req.requestedQuantity = some q)
    (hinv : db.findInventory (req.productId.getD "") req.variantId = none) :
    inventoryCheckPOST db req = .json
      { success := false, available := false, stockManagementEnabled := true,
        isWeightBased := some false,
        availableQuantity := some 0, availableWeight := some 0,
        requestedQuantity := some (numOr req.requestedQuantity 0),
        requestedWeight := some (numOr req.requestedWeight 0),
        message := some "No inventory record found for this product" } := by
  unfold inventoryCheckPOST
  cases hq0 : decide (q = 0) <;>
    simp [hpid, hen, hthrow, hprod, hmode, hq, hinv, numTruthy, hq0]

/-- Weight mode, no inventory record: the all-zero no-record response. -/
theorem inventoryCheckPOST_weight_noRecord (db : CheckDb) (req : CheckRequest)
    (product : ProductRow) (g : ℚ)
    (hpid : strTruthy req.productId = true)
    (hen : getStockManagementSetting db = true)
    (hthrow : db.lookupThrows = false)
    (hprod : db.findProduct (req.productId.getD "") = some product)
    (hmode : isWeightBasedProduct (strOr product.stockManagementType "quantity") = true)
    (hw : req.requestedWeight = some g)
    (hinv : db.findInventory (req.productId.getD "") req.variantId = none) :
    inventoryCheckPOST db req = .json
      { success := false, available := false, stockManagementEnabled := true,
        isWeightBased := some true,
        availableQuantity := some 0, availableWeight := some 0,
        requestedQuantity := some (numOr req.requestedQuantity 0),
        requestedWeight := some (numOr req.requestedWeight 0),
        message := some "No inventory record found for this product" } := by
  unfold inventoryCheckPOST
  cases hg0 : decide (g = 0) <;>
    simp [hpid, hen, hthrow, hprod, hmode, hw, hinv, numTruthy, hg0]

/-- Quantity mode with an inventory record: availability is the inclusive
compare of the stored quantity against the requested quantity. -/
theorem inventoryCheckPOST_qty_record (db : CheckDb) (req : CheckRequest)
    (product : ProductRow) (inv : InventoryRow) (q : ℚ)
    (hpid : strTruthy req.productId = true)
    (hen : getStockManagementSetting db = true)
    (hthrow : db.lookupThrows = false)
    (hprod : db.findProduct (req.productId.getD "") = some product)
    (hmode : isWeightBasedProduct (strOr product.stockManagementType "quantity") = false)
    (hq : req.requestedQuantity = some q)
    (hinv : db.findInventory (req.productId.getD "") req.variantId = some inv) :
    inventoryCheckPOST db req = .json
      { success := true,
        available := decide (numOr inv.availableQuantity 0 ≥ q),
        stockManagementEnabled := true,
        isWeightBased := some false,
        availableQuantity := some (numOr inv.availableQuantity 0),
        availableWeight := none,
        requestedQuantity := some q,
        requestedWeight := none,
        message := some (if numOr inv.availableQuantity 0 ≥ q then "Stock available"
          else "Only " ++ toString (numOr inv.availableQuantity 0) ++ " units available") } := by
  unfold inventoryCheckPOST
  cases hq0 : decide (q = 0) <;>
    simp_all [numTruthy, numOr_some_zero]

/-- Weight mode with an inventory record: availability is the inclusive
compare of the stored weight against the requested weight. -/
theorem inventoryCheckPOST_weight_record (db : CheckDb) (req : CheckRequest)
    (product : ProductRow) (inv : InventoryRow) (g : ℚ)
    (hpid : strTruthy req.productId = true)
    (hen : getStockManagementSetting db = true)
    (hthrow : db.lookupThrows = false)
    (hprod : db.findProduct (req.productId.getD "") = some product)
    (hmode : isWeightBasedProduct (strOr product.stockManagementType "quantity") = true)
    (hw : req.requestedWeight = some g)
    (hinv : db.findInventory (req.productId.getD "") req.variantId = some inv) :
    inventoryCheckPOST db req = .json
      { success := true,
        available := decide (numOr inv.availableWeight 0 ≥ g),
        stockManagementEnabled := true,
        isWeightBased := some true,
        availableQuantity := none,
        availableWeight := some (numOr inv.availableWeight 0),
        requestedQuantity := none,
        requestedWeight := some g,
        message := some (if numOr inv.availableWeight 0 ≥ g then "Stock available"
          else "Only " ++ toString (numOr inv.availableWeight 0) ++ "g available") } := by
  unfold inventoryCheckPOST
  cases hg0 : decide (g = 0) <;>
    simp_all [numTruthy, numOr_some_zero]

/-- The quantity-only handler rejects a falsy requestedQuantity (absent or 0)
in its input guard. -/
theorem inventoryCheckQtyPOST_guard (db : CheckDb) (req : CheckRequest)
    (h : strTruthy req.productId = false ∨ numTruthy req.requestedQuantity = false) :
    inventoryCheckQtyPOST db req
      = .httpError 400 "Product ID and requested quantity are required" := by
  unfold inventoryCheckQtyPOST
  rcases h with h | h <;> simp [h]

/-- Quantity-only handler, no inventory record: available is false and the
reported quantity is 0. -/
theorem inventoryCheckQtyPOST_noRecord (db : CheckDb) (req : CheckRequest)
    (product : ProductRow)
    (hpid : strTruthy req.productId = true)
    (hq : numTruthy req.requestedQuantity = true)
    (hen : getStockManagementSetting db = true)
    (hthrow : db.lookupThrows = false)
    (hprod : db.findProduct (req.productId.getD "") = some product)
    (hinv : db.findInventory (req.productId.getD "") req.variantId = none) :
    inventoryCheckQtyPOST db req = .json
      { success := false, available := false, stockManagementEnabled := true,
        isWeightBased := none,
        availableQuantity := some 0, availableWeight := none,
        requestedQuantity := req.requestedQuantity,
        requestedWeight := none,
        message := some "No inventory record found for this product" } := by
  unfold inventoryCheckQtyPOST
  simp [hpid, hq, hen, hthrow, hprod, hinv]

/-- Client flow under disabled stock management: the add always goes through,
in either mode, for any cart state. -/
theorem addToCartDecision_disabled (db : CheckDb) (product : ClientProduct)
    (quantity : ℚ) (w : Option ℚ) (item : Option CartItem)
    (hid : product.id ≠ "")
    (hdis : getStockManagementSetting db = false) :
    addToCartDecision db product quantity w item = .added := by
  have hpid : strTruthy (addToCartRequestBody product quantity w).productId = true := by
    simp [addToCartRequestBody, strTruthy, hid]
  unfold addToCartDecision
  rw [inventoryCheckPOST_disabled db _ hpid hdis]
  by_cases hm : product.stockManagementType = some "weight" <;> simp [hm]

/-- Client flow, quantity mode, with an inventory record: full case analysis
of the outcome. -/
theorem addToCartDecision_qty_run (db : CheckDb) (product : ClientProduct)
    (prow : ProductRow) (inv : InventoryRow) (quantity : ℚ) (w : Option ℚ)
    (item : Option CartItem)
    (hid : product.id ≠ "")
    (hcmode : product.stockManagementType ≠ some "weight")
    (hen : getStockManagementSetting db = true)
    (hthrow : db.lookupThrows = false)
    (hprod : db.findProduct product.id = some prow)
    (hmode : isWeightBasedProduct (strOr prow.stockManagementType "quantity") = false)
    (hinv : db.findInventory product.id product.variantId = some inv) :
    addToCartDecision db product quantity w item =
      (if numOr inv.availableQuantity 0 ≥ quantity then
        (if numOr (item.map fun i => i.quantity) 0 + quantity
            > numOr inv.availableQuantity 0 then
          (if numOr inv.availableQuantity 0 - numOr (item.map fun i => i.quantity) 0 > 0 then
            .limitedStock (numOr inv.availableQuantity 0
              - numOr (item.map fun i => i.quantity) 0)
          else .atMaximum (numOr (item.map fun i => i.quantity) 0))
        else .added)
      else .insufficientStock
        (some ("Only " ++ toString (numOr inv.availableQuantity 0) ++ " units available"))) := by
  have hbody : addToCartRequestBody product quantity w =
      { productId := some product.id, variantId := product.variantId,
        requestedQuantity := some quantity, requestedWeight := none } := by
    simp [addToCartRequestBody, hcmode]
  have hpid : strTruthy (some product.id : Option String) = true := by
    simp [strTruthy, hid]
  unfold addToCartDecision
  rw [hbody, inventoryCheckPOST_qty_record db
    { productId := some product.id, variantId := product.variantId,
      requestedQuantity := some quantity, requestedWeight := none }
    prow inv quantity hpid hen hthrow hprod hmode rfl hinv]
  by_cases hP : numOr inv.availableQuantity 0 ≥ quantity <;>
    simp [hP, hcmode]

/-- Client flow, weight mode, with an inventory record: full case analysis of
the outcome; the committed weight is unit count times stored per-unit
weight. -/
theorem addToCartDecision_weight_run (db : CheckDb) (product : ClientProduct)
    (prow : ProductRow) (inv : InventoryRow) (quantity : ℚ) (w : Option ℚ)
    (item : Option CartItem)
    (hid : product.id ≠ "")
    (hcmode : product.stockManagementType = some "weight")
    (hen : getStockManagementSetting db = true)
    (hthrow : db.lookupThrows = false)
    (hprod : db.findProduct product.id = some prow)
    (hmode : isWeightBasedProduct (strOr prow.stockManagementType "quantity") = true)
    (hinv : db.findInventory product.id product.variantId = some inv) :
    addToCartDecision db product quantity w item =
      (if numOr inv.availableWeight 0 ≥ numOr w quantity then
        (if numOr (item.map fun i => i.quantity) 0
              * numOr (item.bind fun i => i.numericValue) 0
            + numOr w quantity > numOr inv.availableWeight 0 then
          (if numOr inv.availableWeight 0
              - numOr (item.map fun i => i.quantity) 0
                * numOr (item.bind fun i => i.numericValue) 0 > 0 then
            .limitedStock (numOr inv.availableWeight 0
              - numOr (item.map fun i => i.quantity) 0
                * numOr (item.bind fun i => i.numericValue) 0)
          else .atMaximum (numOr (item.map fun i => i.quantity) 0
            * numOr (item.bind fun i => i.numericValue) 0))
        else .added)
      else .insufficientStock
        (some ("Only " ++ toString (numOr inv.availableWeight 0) ++ "g available"))) := by
  have hbody : addToCartRequestBody product quantity w =
      { productId := some product.id, variantId := product.variantId,
        requestedQuantity := none, requestedWeight := some (numOr w quantity) } := by
    simp [addToCartRequestBody, hcmode]
  have hpid : strTruthy (some product.id : Option String) = true := by
    simp [strTruthy, hid]
  unfold addToCartDecision
  rw [hbody, inventoryCheckPOST_weight_record db
    { productId := some product.id, variantId := product.variantId,
      requestedQuantity := none, requestedWeight := some (numOr w quantity) }
    prow inv (numOr w quantity) hpid hen hthrow hprod hmode rfl hinv]
  by_cases hP : numOr inv.availableWeight 0 ≥ numOr w quantity <;>
    simp [hP, hcmode]

/-- Client flow, quantity mode, no inventory record: the add is refused with
the no-record message, whatever the requested quantity and cart state. -/
theorem addToCartDecision_qty_noRecord (db : CheckDb) (product : ClientProduct)
    (prow : ProductRow) (quantity : ℚ) (w : Option ℚ) (item : Option CartItem)
    (hid : product.id ≠ "")
    (hcmode : product.stockManagementType ≠ some "weight")
    (hen : getStockManagementSetting db = true)
    (hthrow : db.lookupThrows = false)
    (hprod : db.findProduct product.id = some prow)
    (hmode : isWeightBasedProduct (strOr prow.stockManagementType "quantity") = false)
    (hinv : db.findInventory product.id product.variantId = none) :
    addToCartDecision db product quantity w item
      = .insufficientStock (some "No inventory record found for this product") := by
  have hbody : addToCartRequestBody product quantity w =
      { productId := some product.id, variantId := product.variantId,
        requestedQuantity := some quantity, requestedWeight := none } := by
    simp [addToCartRequestBody, hcmode]
  have hpid : strTruthy (some product.id : Option String) = true := by
    simp [strTruthy, hid]
  unfold addToCartDecision
  rw [hbody, inventoryCheckPOST_qty_noRecord db
    { productId := some product.id, variantId := product.variantId,
      requestedQuantity := some quantity, requestedWeight := none }
    prow quantity hpid hen hthrow hprod hmode rfl hinv]
  simp [hcmode]

/-! Claim theorems. -/

/-- C1: with stock management disabled, the inventory check answers
available = true with the 999999 sentinel reported for both amounts, and the
client add-to-cart flow passes its total gate unconditionally (the total is
treated as sufficient), regardless of mode, of the requested amount, of the
cart state, and of whether a product or inventory record exists (both lookup
oracles are unconstrained here and are never consulted). -/
theorem c1_disabled_policy_bypass (db : CheckDb) (req : CheckRequest)
    (product : ClientProduct) (quantity : ℚ) (w : Option ℚ) (item : Option CartItem)
    (hpid : strTruthy req.productId = true)
    (hid : product.id ≠ "")
    (hdis : getStockManagementSetting db = false) :
    inventoryCheckPOST db req = .json
      { success := true, available := true, stockManagementEnabled := false,
        isWeightBased := some false,
        availableQuantity := some 999999, availableWeight := some 999999,
        requestedQuantity := some (numOr req.requestedQuantity 0),
        requestedWeight := some (numOr req.requestedWeight 0),
        message := none }
    ∧ addToCartDecision db product quantity w item = .added :=
  ⟨inventoryCheckPOST_disabled db req hpid hdis,
   addToCartDecision_disabled db product quantity w item hid hdis⟩

/-- Witness for C1 at a disabled snapshot with no product and no inventory
rows at all, a quantity request of 5, and a weight-mode client add with 1000g
already in the cart. -/
theorem c1_disabled_policy_bypass_witness :
    inventoryCheckPOST dbDisabled (reqQty 5) = .json
      { success := true, available := true, stockManagementEnabled := false,
        isWeightBased := some false,
        availableQuantity := some 999999, availableWeight := some 999999,
        requestedQuantity := some (numOr (reqQty 5).requestedQuantity 0),
        requestedWeight := some (numOr (reqQty 5).requestedWeight 0),
        message := none }
    ∧ addToCartDecision dbDisabled clientWeightProduct 2 (some 300)
        (some { quantity := 4, numericValue := some 250 }) = .added :=
  c1_disabled_policy_bypass dbDisabled (reqQty 5) clientWeightProduct 2 (some 300)
    (some { quantity := 4, numericValue := some 250 })
    (by decide) (by decide) (by decide)

/-- C9: an absent stock_management_enabled settings row, or a settings lookup
that throws, makes getStockManagementSetting return false, so the inventory
check silently degrades to the disabled bypass: available = true with the
999999 sentinel, for every request, instead of an error. -/
theorem c9_settings_failure_bypasses (db : CheckDb) (req : CheckRequest)
    (hpid : strTruthy req.productId = true)
    (h : db.settingsRow = none ∨ db.settingsThrows = true) :
    getStockManagementSetting db = false
    ∧ inventoryCheckPOST db req = .json
      { success := true, available := true, stockManagementEnabled := false,
        isWeightBased := some false,
        availableQuantity := some 999999, availableWeight := some 999999,
        requestedQuantity := some (numOr req.requestedQuantity 0),
        requestedWeight := some (numOr req.requestedWeight 0),
        message := none } := by
  have hdis : getStockManagementSetting db = false := by
    unfold getStockManagementSetting
    rcases h with h | h <;> simp [h]
  exact ⟨hdis, inventoryCheckPOST_disabled db req hpid hdis⟩

/-- Witness for C9 at a snapshot whose settings query throws even though the
stored row says true. -/
theorem c9_settings_failure_bypasses_witness :
    getStockManagementSetting dbSettingsThrow = false
    ∧ inventoryCheckPOST dbSettingsThrow (reqWeight 100) = .json
      { success := true, available := true, stockManagementEnabled := false,
        isWeightBased := some false,
        availableQuantity := some 999999, availableWeight := some 999999,
        requestedQuantity := some (numOr (reqWeight 100).requestedQuantity 0),
        requestedWeight := some (numOr (reqWeight 100).requestedWeight 0),
        message := none } :=
  c9_settings_failure_bypasses dbSettingsThrow (reqWeight 100)
    (by decide) (Or.inr (by decide))

/-- C4: with stock management enabled and no inventory record for the
product/variant, the weight-aware handler answers available = false with both
reported amounts 0 and the no-record message in either mode, independent of
the requested amount; the quantity-only handler answers available = false
with reported quantity 0; and the client flow consequently refuses every add
(nothing can be added, the operational reading of headroom = 0), for any
requested amount and cart state. -/
theorem c4_no_record_unavailable
    (dbA : CheckDb) (reqA : CheckRequest) (prodA : ProductRow) (q : ℚ)
    (dbB : CheckDb) (reqB : CheckRequest) (prodB : ProductRow) (g : ℚ)
    (dbC : CheckDb) (reqC : CheckRequest) (prodC : ProductRow)
    (dbD : CheckDb) (product : ClientProduct) (prowD : ProductRow)
    (qD : ℚ) (wD : Option ℚ) (item : Option CartItem)
    (hpidA : strTruthy reqA.productId = true)
    (henA : getStockManagementSetting dbA = true)
    (hthrowA : dbA.lookupThrows = false)
    (hprodA : dbA.findProduct (reqA.productId.getD "") = some prodA)
    (hmodeA : isWeightBasedProduct (strOr prodA.stockManagementType "quantity") = false)
    (hqA : reqA.requestedQuantity = some q)
    (hinvA : dbA.findInventory (reqA.productId.getD "") reqA.variantId = none)
    (hpidB : strTruthy reqB.productId = true)
    (henB : getStockManagementSetting dbB = true)
    (hthrowB : dbB.lookupThrows = false)
    (hprodB : dbB.findProduct (reqB.productId.getD "") = some prodB)
    (hmodeB : isWeightBasedProduct (strOr prodB.stockManagementType "quantity") = true)
    (hwB : reqB.requestedWeight = some g)
    (hinvB : dbB.findInventory (reqB.productId.getD "") reqB.variantId = none)
    (hpidC : strTruthy reqC.productId = true)
    (hqC : numTruthy reqC.requestedQuantity = true)
    (henC : getStockManagementSetting dbC = true)
    (hthrowC : dbC.lookupThrows = false)
    (hprodC : dbC.findProduct (reqC.productId.getD "") = some prodC)
    (hinvC : dbC.findInventory (reqC.productId.getD "") reqC.variantId = none)
    (hidD : product.id ≠ "")
    (hcmodeD : product.stockManagementType ≠ some "weight")
    (henD : getStockManagementSetting dbD = true)
    (hthrowD : dbD.lookupThrows = false)
    (hprodD : dbD.findProduct product.id = some prowD)
    (hmodeD : isWeightBasedProduct (strOr prowD.stockManagementType "quantity") = false)
    (hinvD : dbD.findInventory product.id product.variantId = none) :
    inventoryCheckPOST dbA reqA = .json
      { success := false, available := false, stockManagementEnabled := true,
        isWeightBased := some false,
        availableQuantity := some 0, availableWeight := some 0,
        requestedQuantity := some (numOr reqA.requestedQuantity 0),
        requestedWeight := some (numOr reqA.requestedWeight 0),
        message := some "No inventory record found for this product" }
    ∧ inventoryCheckPOST dbB reqB = .json
      { success := false, available := false, stockManagementEnabled := true,
        isWeightBased := some true,
        availableQuantity := some 0, availableWeight := some 0,
        requestedQuantity := some (numOr reqB.requestedQuantity 0),
        requestedWeight := some (numOr reqB.requestedWeight 0),
        message := some "No inventory record found for this product" }
    ∧ inventoryCheckQtyPOST dbC reqC = .json
      { success := false, available := false, stockManagementEnabled := true,
        isWeightBased := none,
        availableQuantity := some 0, availableWeight := none,
        requestedQuantity := reqC.requestedQuantity,
        requestedWeight := none,
        message := some "No inventory record found for this product" }
    ∧ addToCartDecision dbD product qD wD item
      = .insufficientStock (some "No inventory record found for this product") :=
  ⟨inventoryCheckPOST_qty_noRecord dbA reqA prodA q hpidA henA hthrowA hprodA hmodeA
      hqA hinvA,
   inventoryCheckPOST_weight_noRecord dbB reqB prodB g hpidB henB hthrowB hprodB hmodeB
      hwB hinvB,
   inventoryCheckQtyPOST_noRecord dbC reqC prodC hpidC hqC henC hthrowC hprodC hinvC,
   addToCartDecision_qty_noRecord dbD product prowD qD wD item hidD hcmodeD henD
      hthrowD hprodD hmodeD hinvD⟩

/-- Witness for C4 with concrete enabled snapshots that have no inventory
rows, a quantity request of 7, a weight request of 250g, and a client add of
2 units with 1 unit already in the cart. -/
theorem c4_no_record_unavailable_witness :
    inventoryCheckPOST dbEnabledQtyNoInv (reqQty 7) = .json
      { success := false, available := false, stockManagementEnabled := true,
        isWeightBased := some false,
        availableQuantity := some 0, availableWeight := some 0,
        requestedQuantity := some (numOr (reqQty 7).requestedQuantity 0),
        requestedWeight := some (numOr (reqQty 7).requestedWeight 0),
        message := some "No inventory record found for this product" }
    ∧ inventoryCheckPOST dbEnabledWeightNoInv (reqWeight 250) = .json
      { success := false, available := false, stockManagementEnabled := true,
        isWeightBased := some true,
        availableQuantity := some 0, availableWeight := some 0,
        requestedQuantity := some (numOr (reqWeight 250).requestedQuantity 0),
        requestedWeight := some (numOr (reqWeight 250).requestedWeight 0),
        message := some "No inventory record found for this product" }
    ∧ inventoryCheckQtyPOST dbEnabledQtyNoInv (reqQty 3) = .json
      { success := false, available := false, stockManagementEnabled := true,
        isWeightBased := none,
        availableQuantity := some 0, availableWeight := none,
        requestedQuantity := (reqQty 3).requestedQuantity,
        requestedWeight := none,
        message := some "No inventory record found for this product" }
    ∧ addToCartDecision dbEnabledQtyNoInv clientQtyProduct 2 none
        (some { quantity := 1, numericValue := none })
      = .insufficientStock (some "No inventory record found for this product") :=
  c4_no_record_unavailable
    dbEnabledQtyNoInv (reqQty 7) qtyProductRow 7
    dbEnabledWeightNoInv (reqWeight 250) weightProductRow 250
    dbEnabledQtyNoInv (reqQty 3) qtyProductRow
    dbEnabledQtyNoInv clientQtyProduct qtyProductRow 2 none
    (some { quantity := 1, numericValue := none })
    (by decide) (by decide) (by decide) (by decide) (by decide) (by decide) (by decide)
    (by decide) (by decide) (by decide) (by decide) (by decide) (by decide) (by decide)
    (by decide) (by decide) (by decide) (by decide) (by decide) (by decide)
    (by decide) (by decide) (by decide) (by decide) (by decide) (by decide) (by decide)

/-- C2: with stock management enabled and an inventory record present, the
handler reports available = true exactly when the stored amount of the
product mode (quantity for quantity mode, weight for weight mode) is at least
the requested amount, an inclusive compare that never consults the existing
cart commitment; and on the client side a total (existing commitment plus
request) exactly equal to the stored amount still passes the gate, in both
modes. -/
theorem c2_available_inclusive_compare
    (dbA : CheckDb) (reqA : CheckRequest) (prodA : ProductRow) (invA : InventoryRow) (q : ℚ)
    (dbB : CheckDb) (reqB : CheckRequest) (prodB : ProductRow) (invB : InventoryRow) (g : ℚ)
    (dbC : CheckDb) (productC : ClientProduct) (prowC : ProductRow) (invC : InventoryRow)
    (qC : ℚ) (wC : Option ℚ) (itemC : Option CartItem)
    (dbD : CheckDb) (productD : ClientProduct) (prowD : ProductRow) (invD : InventoryRow)
    (qD : ℚ) (wD : Option ℚ) (itemD : Option CartItem)
    (hpidA : strTruthy reqA.productId = true)
    (henA : getStockManagementSetting dbA = true)
    (hthrowA : dbA.lookupThrows = false)
    (hprodA : dbA.findProduct (reqA.productId.getD "") = some prodA)
    (hmodeA : isWeightBasedProduct (strOr prodA.stockManagementType "quantity") = false)
    (hqA : reqA.requestedQuantity = some q)
    (hinvA : dbA.findInventory (reqA.productId.getD "") reqA.variantId = some invA)
    (hpidB : strTruthy reqB.productId = true)
    (henB : getStockManagementSetting dbB = true)
    (hthrowB : dbB.lookupThrows = false)
    (hprodB : dbB.findProduct (reqB.productId.getD "") = some prodB)
    (hmodeB : isWeightBasedProduct (strOr prodB.stockManagementType "quantity") = true)
    (hwB : reqB.requestedWeight = some g)
    (hinvB : dbB.findInventory (reqB.productId.getD "") reqB.variantId = some invB)
    (hidC : productC.id ≠ "")
    (hcmodeC : productC.stockManagementType ≠ some "weight")
    (henC : getStockManagementSetting dbC = true)
    (hthrowC : dbC.lookupThrows = false)
    (hprodC : dbC.findProduct productC.id = some prowC)
    (hmodeC : isWeightBasedProduct (strOr prowC.stockManagementType "quantity") = false)
    (hinvC : dbC.findInventory productC.id productC.variantId = some invC)
    (hsumC : numOr (itemC.map fun i => i.quantity) 0 + qC = numOr invC.availableQuantity 0)
    (hcurC : numOr (itemC.map fun i => i.quantity) 0 ≥ 0)
    (hidD : productD.id ≠ "")
    (hcmodeD : productD.stockManagementType = some "weight")
    (henD : getStockManagementSetting dbD = true)
    (hthrowD : dbD.lookupThrows = false)
    (hprodD : dbD.findProduct productD.id = some prowD)
    (hmodeD : isWeightBasedProduct (strOr prowD.stockManagementType "quantity") = true)
    (hinvD : dbD.findInventory productD.id productD.variantId = some invD)
    (hsumD : numOr (itemD.map fun i => i.quantity) 0
        * numOr (itemD.bind fun i => i.numericValue) 0
        + numOr wD qD = numOr invD.availableWeight 0)
    (hcomD : numOr (itemD.map fun i => i.quantity) 0
        * numOr (itemD.bind fun i => i.numericValue) 0 ≥ 0) :
    ((responseAvailable (inventoryCheckPOST dbA reqA) = some true)
        ↔ numOr invA.availableQuantity 0 ≥ q)
    ∧ ((responseAvailable (inventoryCheckPOST dbB reqB) = some true)
        ↔ numOr invB.availableWeight 0 ≥ g)
    ∧ addToCartDecision dbC productC qC wC itemC = .added
    ∧ addToCartDecision dbD productD qD wD itemD = .added := by
  refine ⟨?_, ?_, ?_, ?_⟩
  · rw [inventoryCheckPOST_qty_record dbA reqA prodA invA q hpidA henA hthrowA hprodA
      hmodeA hqA hinvA]
    simp [responseAvailable]
  · rw [inventoryCheckPOST_weight_record dbB reqB prodB invB g hpidB henB hthrowB hprodB
      hmodeB hwB hinvB]
    simp [responseAvailable]
  · rw [addToCartDecision_qty_run dbC productC prowC invC qC wC itemC hidC hcmodeC henC
      hthrowC hprodC hmodeC hinvC]
    have h1 : numOr invC.availableQuantity 0 ≥ qC := by linarith
    have h2 : ¬ numOr (itemC.map fun i => i.quantity) 0 + qC
        > numOr invC.availableQuantity 0 := by linarith
    simp [h1, h2]
  · rw [addToCartDecision_weight_run dbD productD prowD invD qD wD itemD hidD hcmodeD henD
      hthrowD hprodD hmodeD hinvD]
    have h1 : numOr invD.availableWeight 0 ≥ numOr wD qD := by linarith
    have h2 : ¬ numOr (itemD.map fun i => i.quantity) 0
        * numOr (itemD.bind fun i => i.numericValue) 0
        + numOr wD qD > numOr invD.availableWeight 0 := by linarith
    simp [h1, h2]

/-- Witness for C2: 10 units in stock with 4 in cart plus 6 requested (total
exactly 10), and 1000g in stock with 2 units of 200g in cart plus 600g
requested (total exactly 1000g); both adds go through, and the endpoint
equivalences are instantiated at a request of 10 against 10 units and of
500g against 500g. -/
theorem c2_available_inclusive_compare_witness :
    ((responseAvailable (inventoryCheckPOST (dbEnabledQty 10) (reqQty 10)) = some true)
        ↔ numOr (some (10 : ℚ)) 0 ≥ 10)
    ∧ ((responseAvailable (inventoryCheckPOST (dbEnabledWeight 500) (reqWeight 500))
          = some true)
        ↔ numOr (some (500 : ℚ)) 0 ≥ 500)
    ∧ addToCartDecision (dbEnabledQty 10) clientQtyProduct 6 none
        (some { quantity := 4, numericValue := none }) = .added
    ∧ addToCartDecision (dbEnabledWeight 1000) clientWeightProduct 1 (some 600)
        (some { quantity := 2, numericValue := some 200 }) = .added :=
  c2_available_inclusive_compare
    (dbEnabledQty 10) (reqQty 10) qtyProductRow
    { availableQuantity := some 10, availableWeight := none } 10
    (dbEnabledWeight 500) (reqWeight 500) weightProductRow
    { availableQuantity := none, availableWeight := some 500 } 500
    (dbEnabledQty 10) clientQtyProduct qtyProductRow
    { availableQuantity := some 10, availableWeight := none } 6 none
    (some { quantity := 4, numericValue := none })
    (dbEnabledWeight 1000) clientWeightProduct weightProductRow
    { availableQuantity := none, availableWeight := some 1000 } 1 (some 600)
    (some { quantity := 2, numericValue := some 200 })
    (by decide) (by decide) (by decide) (by decide) (by decide) (by decide) (by decide)
    (by decide) (by decide) (by decide) (by decide) (by decide) (by decide) (by decide)
    (by decide) (by decide) (by decide) (by decide) (by decide) (by decide) (by decide)
    (by norm_num [numOr]) (by decide)
    (by decide) (by decide) (by decide) (by decide) (by decide) (by decide) (by decide)
    (by norm_num [numOr]) (by norm_num [numOr])

/-- C3 fails as stated: with 10 units in stock, 12 units already in cart and
15 more requested, the total is insufficient and headroom is 10 - 12 = -2,
which is not positive, so the claim predicts the at-maximum reason; the flow
instead reports the generic insufficient-stock message, because the single
request alone already exceeds stock and the client bails out before its
in-cart gate ever computes headroom. -/
theorem c3_counterexample :
    addToCartDecision (dbEnabledQty 10) clientQtyProduct 15 none
      (some { quantity := 12, numericValue := none })
      = .insufficientStock (some "Only 10 units available") := by
  decide

/-- C3 amended: provided the single request alone is available, the in-cart
gate computes headroom exactly as the stored amount minus the existing
commitment (unit count in quantity mode, unit count times stored per-unit
weight in weight mode, possibly negative) and, when the total is
insufficient, reports limited stock carrying that headroom if it is positive
and at-maximum otherwise; when the single request alone is not available the
generic insufficient-stock message is reported regardless of headroom. -/
theorem c3_headroom_reasons
    (dbA : CheckDb) (productA : ClientProduct) (prowA : ProductRow) (invA : InventoryRow)
    (qA : ℚ) (wA : Option ℚ) (itemA : Option CartItem)
    (dbB : CheckDb) (productB : ClientProduct) (prowB : ProductRow) (invB : InventoryRow)
    (qB : ℚ) (wB : Option ℚ) (itemB : Option CartItem)
    (dbE : CheckDb) (productE : ClientProduct) (prowE : ProductRow) (invE : InventoryRow)
    (qE : ℚ) (wE : Option ℚ) (itemE : Option CartItem)
    (hidA : productA.id ≠ "")
    (hcmodeA : productA.stockManagementType ≠ some "weight")
    (henA : getStockManagementSetting dbA = true)
    (hthrowA : dbA.lookupThrows = false)
    (hprodA : dbA.findProduct productA.id = some prowA)
    (hmodeA : isWeightBasedProduct (strOr prowA.stockManagementType "quantity") = false)
    (hinvA : dbA.findInventory productA.id productA.variantId = some invA)
    (havailA : numOr invA.availableQuantity 0 ≥ qA)
    (htotA : numOr (itemA.map fun i => i.quantity) 0 + qA > numOr invA.availableQuantity 0)
    (hidB : productB.id ≠ "")
    (hcmodeB : productB.stockManagementType = some "weight")
    (henB : getStockManagementSetting dbB = true)
    (hthrowB : dbB.lookupThrows = false)
    (hprodB : dbB.findProduct productB.id = some prowB)
    (hmodeB : isWeightBasedProduct (strOr prowB.stockManagementType "quantity") = true)
    (hinvB : dbB.findInventory productB.id productB.variantId = some invB)
    (havailB : numOr invB.availableWeight 0 ≥ numOr wB qB)
    (htotB : numOr (itemB.map fun i => i.quantity) 0
        * numOr (itemB.bind fun i => i.numericValue) 0
        + numOr wB qB > numOr invB.availableWeight 0)
    (hidE : productE.id ≠ "")
    (hcmodeE : productE.stockManagementType ≠ some "weight")
    (henE : getStockManagementSetting dbE = true)
    (hthrowE : dbE.lookupThrows = false)
    (hprodE : dbE.findProduct productE.id = some prowE)
    (hmodeE : isWeightBasedProduct (strOr prowE.stockManagementType "quantity") = false)
    (hinvE : dbE.findInventory productE.id productE.variantId = some invE)
    (hnavE : ¬ numOr invE.availableQuantity 0 ≥ qE) :
    addToCartDecision dbA productA qA wA itemA
      = (if numOr invA.availableQuantity 0 - numOr (itemA.map fun i => i.quantity) 0 > 0
         then .limitedStock (numOr invA.availableQuantity 0
           - numOr (itemA.map fun i => i.quantity) 0)
         else .atMaximum (numOr (itemA.map fun i => i.quantity) 0))
    ∧ addToCartDecision dbB productB qB wB itemB
      = (if numOr invB.availableWeight 0
            - numOr (itemB.map fun i => i.quantity) 0
              * numOr (itemB.bind fun i => i.numericValue) 0 > 0
         then .limitedStock (numOr invB.availableWeight 0
           - numOr (itemB.map fun i => i.quantity) 0
             * numOr (itemB.bind fun i => i.numericValue) 0)
         else .atMaximum (numOr (itemB.map fun i => i.quantity) 0
           * numOr (itemB.bind fun i => i.numericValue) 0))
    ∧ addToCartDecision dbE productE qE wE itemE
      = .insufficientStock
          (some ("Only " ++ toString (numOr invE.availableQuantity 0)
            ++ " units available")) := by
  refine ⟨?_, ?_, ?_⟩
  · rw [addToCartDecision_qty_run dbA productA prowA invA qA wA itemA hidA hcmodeA henA
      hthrowA hprodA hmodeA hinvA]
    simp [havailA, htotA]
  · rw [addToCartDecision_weight_run dbB productB prowB invB qB wB itemB hidB hcmodeB henB
      hthrowB hprodB hmodeB hinvB]
    simp [havailB, htotB]
  · rw [addToCartDecision_qty_run dbE productE prowE invE qE wE itemE hidE hcmodeE henE
      hthrowE hprodE hmodeE hinvE]
    simp [hnavE]

/-- Witness for C3 amended: 10 units in stock with 8 in cart and 5 requested
(headroom 2, limited stock), 1000g in stock with 5 units of 200g in cart and
300g requested (headroom 0, at maximum), and 10 units in stock with 15
requested standalone (insufficient). -/
theorem c3_headroom_reasons_witness :
    addToCartDecision (dbEnabledQty 10) clientQtyProduct 5 none
      (some { quantity := 8, numericValue := none })
      = (if numOr (some (10 : ℚ)) 0
            - numOr ((some { quantity := 8, numericValue := none } :
              Option CartItem).map fun i => i.quantity) 0 > 0
         then .limitedStock (numOr (some (10 : ℚ)) 0
           - numOr ((some { quantity := 8, numericValue := none } :
             Option CartItem).map fun i => i.quantity) 0)
         else .atMaximum (numOr ((some { quantity := 8, numericValue := none } :
           Option CartItem).map fun i => i.quantity) 0))
    ∧ addToCartDecision (dbEnabledWeight 1000) clientWeightProduct 1 (some 300)
        (some { quantity := 5, numericValue := some 200 })
      = (if numOr (some (1000 : ℚ)) 0
            - numOr ((some { quantity := 5, numericValue := some 200 } :
              Option CartItem).map fun i => i.quantity) 0
              * numOr ((some { quantity := 5, numericValue := some 200 } :
                Option CartItem).bind fun i => i.numericValue) 0 > 0
         then .limitedStock (numOr (some (1000 : ℚ)) 0
           - numOr ((some { quantity := 5, numericValue := some 200 } :
             Option CartItem).map fun i => i.quantity) 0
             * numOr ((some { quantity := 5, numericValue := some 200 } :
               Option CartItem).bind fun i => i.numericValue) 0)
         else .atMaximum (numOr ((some { quantity := 5, numericValue := some 200 } :
           Option CartItem).map fun i => i.quantity) 0
           * numOr ((some { quantity := 5, numericValue := some 200 } :
             Option CartItem).bind fun i => i.numericValue) 0))
    ∧ addToCartDecision (dbEnabledQty 10) clientQtyProduct 15 none none
      = .insufficientStock
          (some ("Only " ++ toString (numOr (some (10 : ℚ)) 0) ++ " units available")) :=
  c3_headroom_reasons
    (dbEnabledQty 10) clientQtyProduct qtyProductRow
    { availableQuantity := some 10, availableWeight := none } 5 none
    (some { quantity := 8, numericValue := none })
    (dbEnabledWeight 1000) clientWeightProduct weightProductRow
    { availableQuantity := none, availableWeight := some 1000 } 1 (some 300)
    (some { quantity := 5, numericValue := some 200 })
    (dbEnabledQty 10) clientQtyProduct qtyProductRow
    { availableQuantity := some 10, availableWeight := none } 15 none none
    (by decide) (by decide) (by decide) (by decide) (by decide) (by decide) (by decide)
    (by norm_num [numOr]) (by norm_num [numOr])
    (by decide) (by decide) (by decide) (by decide) (by decide) (by decide) (by decide)
    (by norm_num [numOr]) (by norm_num [numOr])
    (by decide) (by decide) (by decide) (by decide) (by decide) (by decide) (by decide)
    (by norm_num [numOr])

/-- C5: for a weight-mode client add with no weight supplied, the request body
falls back to the caller scalar quantity as requestedWeight (and in general
sends weightInGrams || quantity, so a weight value is always supplied through
the client); at the endpoint, the weight-required input error fires exactly
when no weight value at all reached it, symmetrically the quantity-required
error fires exactly when no quantity value reached it in quantity mode; and a
missing product identity is an input error. -/
theorem c5_fallback_and_input_errors
    (product : ClientProduct) (quantity : ℚ) (w : Option ℚ)
    (db : CheckDb) (req : CheckRequest) (prow : ProductRow)
    (req2 : CheckRequest) (prow2 : ProductRow)
    (badReq : CheckRequest)
    (hwmode : product.stockManagementType = some "weight")
    (hpid : strTruthy req.productId = true)
    (hen : getStockManagementSetting db = true)
    (hthrow : db.lookupThrows = false)
    (hprod : db.findProduct (req.productId.getD "") = some prow)
    (hmode : isWeightBasedProduct (strOr prow.stockManagementType "quantity") = true)
    (hpid2 : strTruthy req2.productId = true)
    (hprod2 : db.findProduct (req2.productId.getD "") = some prow2)
    (hmode2 : isWeightBasedProduct (strOr prow2.stockManagementType "quantity") = false)
    (hbad : strTruthy badReq.productId = false) :
    (addToCartRequestBody product quantity none).requestedWeight = some quantity
    ∧ (addToCartRequestBody product quantity w).requestedWeight
        = some (numOr w quantity)
    ∧ (inventoryCheckPOST db req
        = .httpError 400 "Requested weight is required for weight-based products"
        ↔ req.requestedWeight = none)
    ∧ (inventoryCheckPOST db req2
        = .httpError 400 "Requested quantity is required for quantity-based products"
        ↔ req2.requestedQuantity = none)
    ∧ inventoryCheckPOST db badReq = .httpError 400 "Product ID is required" := by
  refine ⟨?_, ?_, ?_, ?_, inventoryCheckPOST_missingId db badReq hbad⟩
  · simp [addToCartRequestBody, hwmode, numOr]
  · simp [addToCartRequestBody, hwmode]
  · constructor
    · intro h
      cases hw : req.requestedWeight with
      | none => rfl
      | some v =>
        exfalso
        cases hinv : db.findInventory (req.productId.getD "") req.variantId with
        | none =>
          rw [inventoryCheckPOST_weight_noRecord db req prow v hpid hen hthrow hprod
            hmode hw hinv] at h
          exact CheckResponse.noConfusion h
        | some inv =>
          rw [inventoryCheckPOST_weight_record db req prow inv v hpid hen hthrow hprod
            hmode hw hinv] at h
          exact CheckResponse.noConfusion h
    · intro h
      exact inventoryCheckPOST_weightMissing db req prow hpid hen hthrow hprod hmode h
  · constructor
    · intro h
      cases hq : req2.requestedQuantity with
      | none => rfl
      | some v =>
        exfalso
        cases hinv : db.findInventory (req2.productId.getD "") req2.variantId with
        | none =>
          rw [inventoryCheckPOST_qty_noRecord db req2 prow2 v hpid2 hen hthrow hprod2
            hmode2 hq hinv] at h
          exact CheckResponse.noConfusion h
        | some inv =>
          rw [inventoryCheckPOST_qty_record db req2 prow2 inv v hpid2 hen hthrow hprod2
            hmode2 hq hinv] at h
          exact CheckResponse.noConfusion h
    · intro h
      exact inventoryCheckPOST_qtyMissing db req2 prow2 hpid2 hen hthrow hprod2 hmode2 h

/-- Witness for C5 at a weight-mode client product with quantity 3 and no
weight, an enabled snapshot that serves a weight product under p1 and a
quantity product under p2, a weightless request for p1, a quantityless
request for p2, and a request with no product id. -/
theorem c5_fallback_and_input_errors_witness :
    (addToCartRequestBody clientWeightProduct 3 none).requestedWeight = some 3
    ∧ (addToCartRequestBody clientWeightProduct 3 (some 450)).requestedWeight
        = some (numOr (some 450) 3)
    ∧ (inventoryCheckPOST dbTwoProducts
          { productId := some "p1", variantId := none,
            requestedQuantity := some 2, requestedWeight := none }
        = .httpError 400 "Requested weight is required for weight-based products"
        ↔ ({ productId := some "p1", variantId := none,
             requestedQuantity := some 2, requestedWeight := none }
            : CheckRequest).requestedWeight = none)
    ∧ (inventoryCheckPOST dbTwoProducts
          { productId := some "p2", variantId := none,
            requestedQuantity := none, requestedWeight := some 100 }
        = .httpError 400 "Requested quantity is required for quantity-based products"
        ↔ ({ productId := some "p2", variantId := none,
             requestedQuantity := none, requestedWeight := some 100 }
            : CheckRequest).requestedQuantity = none)
    ∧ inventoryCheckPOST dbTwoProducts reqNoId
        = .httpError 400 "Product ID is required" :=
  c5_fallback_and_input_errors clientWeightProduct 3 (some 450) dbTwoProducts
    { productId := some "p1", variantId := none,
      requestedQuantity := some 2, requestedWeight := none }
    weightProductRow
    { productId := some "p2", variantId := none,
      requestedQuantity := none, requestedWeight := some 100 }
    qtyProductRow
    reqNoId
    (by decide) (by decide) (by decide) (by decide) (by decide) (by decide) (by decide)
    (by decide) (by decide) (by decide)

/-- C6 fails as stated: the disabled-settings bypass runs before the product
lookup, so a request for a product that does not exist (the snapshot has no
product rows at all) is answered 200 with the sentinel body instead of the
claimed HTTP 404. -/
theorem c6_counterexample :
    inventoryCheckPOST dbDisabled (reqQty 2) = .json
      { success := true, available := true, stockManagementEnabled := false,
        isWeightBased := some false,
        availableQuantity := some 999999, availableWeight := some 999999,
        requestedQuantity := some 2, requestedWeight := some 0,
        message := none }
    ∧ inventoryCheckPOST dbDisabled (reqQty 2) ≠ .httpError 404 "Product not found" := by
  decide

/-- C6 amended: only when stock management is enabled does an unknown
productId yield HTTP 404 (when disabled the endpoint answers 200 without
consulting the product table); HTTP 400 fires when productId is missing and,
on the enabled path, when the amount field matching the product mode is
absent (as when only the wrong-mode field was supplied); HTTP 500 fires when
the enabled-path lookup throws. -/
theorem c6_http_statuses
    (dbA : CheckDb) (reqA : CheckRequest)
    (dbB : CheckDb) (reqB : CheckRequest)
    (dbC : CheckDb) (reqC : CheckRequest)
    (dbD : CheckDb) (reqD : CheckRequest) (prodD : ProductRow)
    (dbE : CheckDb) (reqE : CheckRequest) (prodE : ProductRow)
    (dbF : CheckDb) (reqF : CheckRequest)
    (hpidA : strTruthy reqA.productId = true)
    (henA : getStockManagementSetting dbA = true)
    (hthrowA : dbA.lookupThrows = false)
    (hprodA : dbA.findProduct (reqA.productId.getD "") = none)
    (hpidB : strTruthy reqB.productId = true)
    (hdisB : getStockManagementSetting dbB = false)
    (hprodB : dbB.findProduct (reqB.productId.getD "") = none)
    (hpidC : strTruthy reqC.productId = false)
    (hpidD : strTruthy reqD.productId = true)
    (henD : getStockManagementSetting dbD = true)
    (hthrowD : dbD.lookupThrows = false)
    (hprodD : dbD.findProduct (reqD.productId.getD "") = some prodD)
    (hmodeD : isWeightBasedProduct (strOr prodD.stockManagementType "quantity") = true)
    (hwD : reqD.requestedWeight = none)
    (hpidE : strTruthy reqE.productId = true)
    (henE : getStockManagementSetting dbE = true)
    (hthrowE : dbE.lookupThrows = false)
    (hprodE : dbE.findProduct (reqE.productId.getD "") = some prodE)
    (hmodeE : isWeightBasedProduct (strOr prodE.stockManagementType "quantity") = false)
    (hqE : reqE.requestedQuantity = none)
    (hpidF : strTruthy reqF.productId = true)
    (henF : getStockManagementSetting dbF = true)
    (hthrowF : dbF.lookupThrows = true) :
    inventoryCheckPOST dbA reqA = .httpError 404 "Product not found"
    ∧ inventoryCheckPOST dbB reqB = .json
      { success := true, available := true, stockManagementEnabled := false,
        isWeightBased := some false,
        availableQuantity := some 999999, availableWeight := some 999999,
        requestedQuantity := some (numOr reqB.requestedQuantity 0),
        requestedWeight := some (numOr reqB.requestedWeight 0),
        message := none }
    ∧ inventoryCheckPOST dbC reqC = .httpError 400 "Product ID is required"
    ∧ inventoryCheckPOST dbD reqD
      = .httpError 400 "Requested weight is required for weight-based products"
    ∧ inventoryCheckPOST dbE reqE
      = .httpError 400 "Requested quantity is required for quantity-based products"
    ∧ inventoryCheckPOST dbF reqF = .httpError 500 "Failed to check inventory" :=
  ⟨inventoryCheckPOST_noProduct dbA reqA hpidA henA hthrowA hprodA,
   inventoryCheckPOST_disabled dbB reqB hpidB hdisB,
   inventoryCheckPOST_missingId dbC reqC hpidC,
   inventoryCheckPOST_weightMissing dbD reqD prodD hpidD henD hthrowD hprodD hmodeD hwD,
   inventoryCheckPOST_qtyMissing dbE reqE prodE hpidE henE hthrowE hprodE hmodeE hqE,
   inventoryCheckPOST_throws dbF reqF hpidF henF hthrowF⟩

/-- Witness for C6 amended: an enabled snapshot with no product rows (404), a
disabled snapshot with no product rows (200), a request with no product id
(400), a quantity request for a weight product (400), a weight request for a
quantity product (400), and an enabled snapshot whose lookup throws (500). -/
theorem c6_http_statuses_witness :
    inventoryCheckPOST dbEnabledNoProd (reqQty 1) = .httpError 404 "Product not found"
    ∧ inventoryCheckPOST dbDisabled (reqQty 1) = .json
      { success := true, available := true, stockManagementEnabled := false,
        isWeightBased := some false,
        availableQuantity := some 999999, availableWeight := some 999999,
        requestedQuantity := some (numOr (reqQty 1).requestedQuantity 0),
        requestedWeight := some (numOr (reqQty 1).requestedWeight 0),
        message := none }
    ∧ inventoryCheckPOST (dbEnabledQty 5) reqNoId
      = .httpError 400 "Product ID is required"
    ∧ inventoryCheckPOST dbEnabledWeightNoInv (reqQty 3)
      = .httpError 400 "Requested weight is required for weight-based products"
    ∧ inventoryCheckPOST dbEnabledQtyNoInv (reqWeight 100)
      = .httpError 400 "Requested quantity is required for quantity-based products"
    ∧ inventoryCheckPOST dbLookupThrow (reqQty 1)
      = .httpError 500 "Failed to check inventory" :=
  c6_http_statuses
    dbEnabledNoProd (reqQty 1)
    dbDisabled (reqQty 1)
    (dbEnabledQty 5) reqNoId
    dbEnabledWeightNoInv (reqQty 3) weightProductRow
    dbEnabledQtyNoInv (reqWeight 100) qtyProductRow
    dbLookupThrow (reqQty 1)
    (by decide) (by decide) (by decide) (by decide) (by decide) (by decide) (by decide)
    (by decide) (by decide) (by decide) (by decide) (by decide) (by decide) (by decide)
    (by decide) (by decide) (by decide) (by decide) (by decide) (by decide) (by decide)
    (by decide) (by decide)

/-- C7 fails as stated: a zero-quantity request against an enabled snapshot
with no inventory record is accepted as input yet answered available = false,
and the quantity-only handler rejects a zero requestedQuantity outright as
missing input, so zero-length requests are neither always accepted nor always
satisfiable. -/
theorem c7_counterexample :
    inventoryCheckPOST dbEnabledQtyNoInv (reqQty 0) = .json
      { success := false, available := false, stockManagementEnabled := true,
        isWeightBased := some false,
        availableQuantity := some 0, availableWeight := some 0,
        requestedQuantity := some 0, requestedWeight := some 0,
        message := some "No inventory record found for this product" }
    ∧ inventoryCheckQtyPOST (dbEnabledQty 5) (reqQty 0)
      = .httpError 400 "Product ID and requested quantity are required" := by
  decide

/-- C7 amended: the weight-aware handler accepts a zero requested amount as
valid input and answers available = true when stock management is disabled or
when an inventory record with non-negative stock exists (in either mode), but
answers available = false when stock management is enabled and no inventory
record exists; the quantity-only handler rejects a zero requestedQuantity as
missing input with HTTP 400. -/
theorem c7_zero_requests
    (dbA : CheckDb) (reqA : CheckRequest)
    (dbB : CheckDb) (reqB : CheckRequest) (prodB : ProductRow) (invB : InventoryRow)
    (dbC : CheckDb) (reqC : CheckRequest) (prodC : ProductRow) (invC : InventoryRow)
    (dbD : CheckDb) (reqD : CheckRequest) (prodD : ProductRow)
    (dbE : CheckDb) (reqE : CheckRequest)
    (hpidA : strTruthy reqA.productId = true)
    (hdisA : getStockManagementSetting dbA = false)
    (hzA : reqA.requestedQuantity = some 0 ∨ reqA.requestedWeight = some 0)
    (hpidB : strTruthy reqB.productId = true)
    (henB : getStockManagementSetting dbB = true)
    (hthrowB : dbB.lookupThrows = false)
    (hprodB : dbB.findProduct (reqB.productId.getD "") = some prodB)
    (hmodeB : isWeightBasedProduct (strOr prodB.stockManagementType "quantity") = false)
    (hqB : reqB.requestedQuantity = some 0)
    (hinvB : dbB.findInventory (reqB.productId.getD "") reqB.variantId = some invB)
    (hnnB : numOr invB.availableQuantity 0 ≥ 0)
    (hpidC : strTruthy reqC.productId = true)
    (henC : getStockManagementSetting dbC = true)
    (hthrowC : dbC.lookupThrows = false)
    (hprodC : dbC.findProduct (reqC.productId.getD "") = some prodC)
    (hmodeC : isWeightBasedProduct (strOr prodC.stockManagementType "quantity") = true)
    (hwC : reqC.requestedWeight = some 0)
    (hinvC : dbC.findInventory (reqC.productId.getD "") reqC.variantId = some invC)
    (hnnC : numOr invC.availableWeight 0 ≥ 0)
    (hpidD : strTruthy reqD.productId = true)
    (henD : getStockManagementSetting dbD = true)
    (hthrowD : dbD.lookupThrows = false)
    (hprodD : dbD.findProduct (reqD.productId.getD "") = some prodD)
    (hmodeD : isWeightBasedProduct (strOr prodD.stockManagementType "quantity") = false)
    (hqD : reqD.requestedQuantity = some 0)
    (hinvD : dbD.findInventory (reqD.productId.getD "") reqD.variantId = none)
    (hzE : reqE.requestedQuantity = some 0) :
    responseAvailable (inventoryCheckPOST dbA reqA) = some true
    ∧ responseAvailable (inventoryCheckPOST dbB reqB) = some true
    ∧ responseAvailable (inventoryCheckPOST dbC reqC) = some true
    ∧ responseAvailable (inventoryCheckPOST dbD reqD) = some false
    ∧ inventoryCheckQtyPOST dbE reqE
      = .httpError 400 "Product ID and requested quantity are required" := by
  refine ⟨?_, ?_, ?_, ?_, ?_⟩
  · rw [inventoryCheckPOST_disabled dbA reqA hpidA hdisA]
    rfl
  · rw [inventoryCheckPOST_qty_record dbB reqB prodB invB 0 hpidB henB hthrowB hprodB
      hmodeB hqB hinvB]
    simp [responseAvailable, hnnB]
  · rw [inventoryCheckPOST_weight_record dbC reqC prodC invC 0 hpidC henC hthrowC hprodC
      hmodeC hwC hinvC]
    simp [responseAvailable, hnnC]
  · rw [inventoryCheckPOST_qty_noRecord dbD reqD prodD 0 hpidD henD hthrowD hprodD
      hmodeD hqD hinvD]
    rfl
  · exact inventoryCheckQtyPOST_guard dbE reqE (Or.inr (by simp [numTruthy, hzE]))

/-- Witness for C7 amended at zero requests against a disabled snapshot, a
5-unit record, a 500g record, an enabled snapshot without records, and the
quantity-only handler. -/
theorem c7_zero_requests_witness :
    responseAvailable (inventoryCheckPOST dbDisabled (reqQty 0)) = some true
    ∧ responseAvailable (inventoryCheckPOST (dbEnabledQty 5) (reqQty 0)) = some true
    ∧ responseAvailable (inventoryCheckPOST (dbEnabledWeight 500) (reqWeight 0))
      = some true
    ∧ responseAvailable (inventoryCheckPOST dbEnabledQtyNoInv (reqQty 0)) = some false
    ∧ inventoryCheckQtyPOST (dbEnabledQty 5) (reqQty 0)
      = .httpError 400 "Product ID and requested quantity are required" :=
  c7_zero_requests
    dbDisabled (reqQty 0)
    (dbEnabledQty 5) (reqQty 0) qtyProductRow
    { availableQuantity := some 5, availableWeight := none }
    (dbEnabledWeight 500) (reqWeight 0) weightProductRow
    { availableQuantity := none, availableWeight := some 500 }
    dbEnabledQtyNoInv (reqQty 0) qtyProductRow
    (dbEnabledQty 5) (reqQty 0)
    (by decide) (by decide) (Or.inl (by decide))
    (by decide) (by decide) (by decide) (by decide) (by decide) (by decide) (by decide)
    (by decide)
    (by decide) (by decide) (by decide) (by decide) (by decide) (by decide) (by decide)
    (by decide)
    (by decide) (by decide) (by decide) (by decide) (by decide) (by decide) (by decide)
    (by decide)

/-- C8 fails as stated: a request for -1 units against an enabled snapshot
whose record holds 0 units is not rejected as a caller input error (negative
numbers are truthy, so they pass the required-field validation); it is
evaluated and, since 0 is at least -1, even answered available = true with
the stock-available message. -/
theorem c8_counterexample :
    inventoryCheckPOST (dbEnabledQty 0) (reqQty (-1)) = .json
      { success := true, available := true, stockManagementEnabled := true,
        isWeightBased := some false,
        availableQuantity := some 0, availableWeight := none,
        requestedQuantity := some (-1), requestedWeight := none,
        message := some "Stock available" } := by
  decide

/-- C8 amended: negative requested amounts are not rejected; they pass the
required-field validation (a negative number is truthy) and are evaluated,
and with stock management enabled and an inventory record holding a
non-negative amount the answer is available = true, in both modes. -/
theorem c8_negative_requests_evaluated
    (dbA : CheckDb) (reqA : CheckRequest) (prodA : ProductRow) (invA : InventoryRow)
    (q : ℚ)
    (dbB : CheckDb) (reqB : CheckRequest) (prodB : ProductRow) (invB : InventoryRow)
    (g : ℚ)
    (hpidA : strTruthy reqA.productId = true)
    (henA : getStockManagementSetting dbA = true)
    (hthrowA : dbA.lookupThrows = false)
    (hprodA : dbA.findProduct (reqA.productId.getD "") = some prodA)
    (hmodeA : isWeightBasedProduct (strOr prodA.stockManagementType "quantity") = false)
    (hqA : reqA.requestedQuantity = some q)
    (hnegA : q < 0)
    (hinvA : dbA.findInventory (reqA.productId.getD "") reqA.variantId = some invA)
    (hnnA : numOr invA.availableQuantity 0 ≥ 0)
    (hpidB : strTruthy reqB.productId = true)
    (henB : getStockManagementSetting dbB = true)
    (hthrowB : dbB.lookupThrows = false)
    (hprodB : dbB.findProduct (reqB.productId.getD "") = some prodB)
    (hmodeB : isWeightBasedProduct (strOr prodB.stockManagementType "quantity") = true)
    (hwB : reqB.requestedWeight = some g)
    (hnegB : g < 0)
    (hinvB : dbB.findInventory (reqB.productId.getD "") reqB.variantId = some invB)
    (hnnB : numOr invB.availableWeight 0 ≥ 0) :
    responseAvailable (inventoryCheckPOST dbA reqA) = some true
    ∧ responseAvailable (inventoryCheckPOST dbB reqB) = some true := by
  constructor
  · rw [inventoryCheckPOST_qty_record dbA reqA prodA invA q hpidA henA hthrowA hprodA
      hmodeA hqA hinvA]
    have h : numOr invA.availableQuantity 0 ≥ q := by linarith
    simp [responseAvailable, h]
  · rw [inventoryCheckPOST_weight_record dbB reqB prodB invB g hpidB henB hthrowB hprodB
      hmodeB hwB hinvB]
    have h : numOr invB.availableWeight 0 ≥ g := by linarith
    simp [responseAvailable, h]

/-- Witness for C8 amended at a request of -1 units against a 0-unit record
and a request of -50g against a 500g record. -/
theorem c8_negative_requests_evaluated_witness :
    responseAvailable (inventoryCheckPOST (dbEnabledQty 0) (reqQty (-1))) = some true
    ∧ responseAvailable (inventoryCheckPOST (dbEnabledWeight 500) (reqWeight (-50)))
      = some true :=
  c8_negative_requests_evaluated
    (dbEnabledQty 0) (reqQty (-1)) qtyProductRow
    { availableQuantity := some 0, availableWeight := none } (-1)
    (dbEnabledWeight 500) (reqWeight (-50)) weightProductRow
    { availableQuantity := none, availableWeight := some 500 } (-50)
    (by decide) (by decide) (by decide) (by decide) (by decide) (by decide) (by decide)
    (by decide) (by decide)
    (by decide) (by decide) (by decide) (by decide) (by decide) (by decide) (by decide)
    (by decide) (by decide)

/-- C10: under valid registration input with no pre-existing account, the
inserted user row carries status approved exactly when the supplied magic
token is truthy and matches a globalMagicLink row whose isEnabled flag is
true, status pending otherwise, and the requiresApproval field of the success
response is the negation of that validity (true exactly in the pending
case). -/
theorem c10_magic_link_approval (db : RegisterDb) (hashPassword : String → String)
    (newId : String) (req : RegisterRequest)
    (hemail : strTruthy req.email = true)
    (hpass : strTruthy req.password = true)
    (hname : strTruthy req.name = true)
    (hnomail : db.userWithEmailExists (req.email.getD "") = false)
    (hnophone : db.userWithPhoneExists (req.email.getD "") = false) :
    ((registerPOST db hashPassword newId req).insertedUser.map fun u => u.status)
      = some (if magicLinkValid db req.magicToken then "approved" else "pending")
    ∧ respRequiresApproval (registerPOST db hashPassword newId req).response
      = some (!magicLinkValid db req.magicToken) := by
  unfold registerPOST
  by_cases hv : magicLinkValid db req.magicToken <;>
    simp [hemail, hpass, hname, hnomail, hnophone, hv, respRequiresApproval]

/-- Witness for C10 at a database holding one enabled magic link for the
token tok, instantiated with the request that supplies that token. -/
theorem c10_magic_link_approval_witness :
    ((registerPOST regDb (fun s => s) "u1" regReqMagic).insertedUser.map fun u => u.status)
      = some (if magicLinkValid regDb regReqMagic.magicToken then "approved" else "pending")
    ∧ respRequiresApproval (registerPOST regDb (fun s => s) "u1" regReqMagic).response
      = some (!magicLinkValid regDb regReqMagic.magicToken) :=
  c10_magic_link_approval regDb (fun s => s) "u1" regReqMagic
    (by decide) (by decide) (by decide) (by decide) (by decide)

end Storefront
